import Mathlib

/-!
Verification of the reconciliation/normalization engine of SusScanner
(`src/utils/csv.ts`, mainly `buildDownloadCsvRowsStrict` and its local
helpers `num`, `pct`, `rat`, `sumNN`, `pick`, `getCSV`, `parseFromReasons`,
and the final sort).

Modelling conventions:
* JavaScript values are embedded as the inductive `JVal`.  Finite numbers
  are rationals (the concrete values exercised here are exact in binary64,
  so the rational model agrees with the JS semantics on them); the
  non-finite doubles NaN and plus/minus Infinity get their own constructors
  because `num` tests `Number.isFinite`.
* `Math.round x` is `jround`, the floor of `x + 1/2` (round half toward
  positive infinity), which is the ECMAScript definition.
* The regular expressions in the source are embedded via a small
  backtracking matcher (`RE`, `outcomes`) whose priority order (greedy
  quantifiers, leftmost alternative first, leftmost match wins) follows the
  ECMAScript semantics; each pattern of the source is transliterated into
  an `RE` value.
* `String.prototype.localeCompare` on the lowercased usernames is modelled
  as code-point order on the lowercased strings, which agrees with it on
  the ASCII inputs considered here.
* `Array.prototype.sort` is stable with a consistent comparator, and a
  stable sort w.r.t. a total preorder has a unique result, so it is
  modelled by `List.insertionSort` over the comparator-induced preorder.
-/

set_option allowUnsafeReducibility true
attribute [local semireducible] Rat.mul Rat.add Rat.inv Rat.sub Rat.ofScientific

namespace SusScanner

/-- Model of a JavaScript value as stored in the scan results, the side
table (csv) rows and the reasons strings. -/
inductive JVal where
  | null
  | undefined
  | num (q : ℚ)
  | nan
  | inf
  | ninf
  | str (s : String)
  | bool (b : Bool)
  | obj (fields : List (String × JVal))
  | arr (elems : List JVal)

/-- JavaScript `v == null`, true exactly for `null` and `undefined`. -/
def isNullish : JVal → Bool
  | .null => true
  | .undefined => true
  | _ => false

/-- Property access `o[k]` for the string keys used by the dotted paths:
objects look the key up, everything else yields `undefined`.  (The paths
used by the source never index arrays or string primitives numerically.) -/
def getProp (v : JVal) (k : String) : JVal :=
  match v with
  | .obj fs =>
    match fs.find? (fun kv => kv.1 == k) with
    | some kv => kv.2
    | none => .undefined
  | _ => .undefined

/-- Splits a dotted path into its components, like `"a.b".split(".")`.
(Implemented on `List Char` so that it reduces in the kernel.) -/
def splitDots : List Char → List (List Char)
  | [] => [[]]
  | c :: rest =>
    let r := splitDots rest
    if c = '.' then [] :: r
    else
      match r with
      | h :: t => (c :: h) :: t
      | [] => [[c]]

/-- One dotted path of `pick`:
`path.split(".").reduce((o, k) => (o == null ? undefined : o[k]), obj)`. -/
def pickPath (o : JVal) (path : String) : JVal :=
  (splitDots path.data).foldl
    (fun o k => if isNullish o then .undefined else getProp o (String.mk k)) o

/-- The source's `pick(obj, paths)`: the first dotted path that resolves to
a non-nullish value wins, else `undefined`.  (The `try/catch` of the source
can never fire in this model: property access is total.) -/
def pick (o : JVal) : List String → JVal
  | [] => .undefined
  | p :: ps =>
    let v := pickPath o p
    if isNullish v then pick o ps else v

/-- The source's `norm`: lowercase, then strip every character that is not
`[a-z0-9]`. -/
def normKey (s : String) : String :=
  String.mk ((s.data.map Char.toLower).filter (fun c => c.isLower || c.isDigit))

/-- JavaScript object assignment `idx[k] = v` on an association list:
an existing binding is overwritten in place, a new key is appended. -/
def setIdx (idx : List (String × JVal)) (k : String) (v : JVal) :
    List (String × JVal) :=
  match idx with
  | [] => [(k, v)]
  | (k', v') :: rest => if k' = k then (k, v) :: rest else (k', v') :: setIdx rest k v

/-- The normalized-key index built by `getCSV`:
`for (const [k, v] of Object.entries(csv)) idx[norm(k)] = v`. -/
def buildIdx (entries : List (String × JVal)) : List (String × JVal) :=
  entries.foldl (fun idx kv => setIdx idx (normKey kv.1) kv.2) []

/-- Lookup `idx[k]`, `undefined` when the key is absent. -/
def idxFind (idx : List (String × JVal)) (k : String) : JVal :=
  match idx.find? (fun kv => kv.1 == k) with
  | some kv => kv.2
  | none => .undefined

/-- The alias loop of `getCSV`: the first alias whose normalized key holds a
non-nullish value wins, else `undefined`. -/
def lookupAliases (idx : List (String × JVal)) : List String → JVal
  | [] => .undefined
  | a :: as =>
    let v := idxFind idx (normKey a)
    if isNullish v then lookupAliases idx as else v

/-- `Object.entries` of an array: index keys as strings. -/
def arrEntries (es : List JVal) : List (String × JVal) :=
  es.enum.map (fun iv => (toString iv.1, iv.2))

/-- The source's `getCSV(csv, aliases)` as a pure function of the row value:
non-objects (`!csv || typeof csv !== "object"`) yield `undefined`; for
objects the normalized-key index is consulted alias by alias.  The caching
side effect of the source is modelled separately by `getCSVCached`. -/
def getCSV (csv : JVal) (aliases : List String) : JVal :=
  match csv with
  | .obj fs => lookupAliases (buildIdx fs) aliases
  | .arr es => lookupAliases (buildIdx (arrEntries es)) aliases
  | _ => .undefined

/-! ### A small backtracking regex matcher

The source uses a handful of JavaScript regular expressions.  They are
embedded as `RE` values built from literals, character classes, greedy
`*`/`+`/`?`, alternation, concatenation, the word boundary assertion and a
single capture group, which is all those patterns use.  `outcomes` lists
every way a pattern can match a prefix of the input, in the ECMAScript
backtracking priority order (greedy quantifiers try longer first,
alternation tries the left branch first); `jsMatchAux` scans start
positions left to right like `String.prototype.match` without the `g`
flag. -/

/-- JavaScript `\w` (regexes here are non-unicode): `[A-Za-z0-9_]`. -/
def wordChar (c : Char) : Bool := c.isAlpha || c.isDigit || c = '_'

/-- JavaScript `\s` restricted to the ASCII whitespace that can occur in
the reasons strings. -/
def wsChar (c : Char) : Bool :=
  c = ' ' || c = '\t' || c = '\n' || c = '\r' || c = '\x0b' || c = '\x0c'

/-- The class `[0-9.]`. -/
def digitDot (c : Char) : Bool := c.isDigit || c = '.'

/-- The class `[:\s]`. -/
def colonWs (c : Char) : Bool := c = ':' || wsChar c

/-- The class `[-\s]`. -/
def dashWs (c : Char) : Bool := c = '-' || wsChar c

/-- Syntax of the embedded regular expressions. -/
inductive RE where
  | lit (s : List Char)
  | cls (p : Char → Bool)
  | star (p : Char → Bool)
  | plus (p : Char → Bool)
  | opt (r : RE)
  | alt (r₁ r₂ : RE)
  | seq (r₁ r₂ : RE)
  | wb
  | grp (r : RE)

/-- Concatenation of a whole pattern, `[]` being the empty pattern. -/
def seqs (l : List RE) : RE := l.foldr .seq (.lit [])

/-- Greedy munch of a character class: the maximal matching prefix and the
rest. -/
def munch (p : Char → Bool) : List Char → List Char × List Char
  | [] => ([], [])
  | c :: cs =>
    if p c then
      let tr := munch p cs
      (c :: tr.1, tr.2)
    else ([], c :: cs)

/-- One way a regex can match at the current position: the consumed
characters, the value of the capture group (if one participated) and the
remaining input. -/
abbrev Outcome : Type := List Char × Option (List Char) × List Char

/-- All ways `re` can match a prefix of `l`, highest-priority first.
`prev` is the character just before the current position (for `\b`). -/
def outcomes : RE → Option Char → List Char → List Outcome
  | .lit s, _, l =>
    if l.take s.length = s then [(s, none, l.drop s.length)] else []
  | .cls p, _, l =>
    match l with
    | c :: cs => if p c then [([c], none, cs)] else []
    | [] => []
  | .star p, _, l =>
    let tr := munch p l
    ((List.range (tr.1.length + 1)).reverse).map
      (fun i => (tr.1.take i, none, tr.1.drop i ++ tr.2))
  | .plus p, _, l =>
    let tr := munch p l
    ((List.range tr.1.length).reverse).map
      (fun i => (tr.1.take (i + 1), none, tr.1.drop (i + 1) ++ tr.2))
  | .opt r, prev, l => outcomes r prev l ++ [(([], none, l) : Outcome)]
  | .alt r₁ r₂, prev, l => outcomes r₁ prev l ++ outcomes r₂ prev l
  | .seq r₁ r₂, prev, l =>
    (outcomes r₁ prev l).flatMap
      (fun o₁ =>
        (outcomes r₂ (o₁.1.getLast?.or prev) o₁.2.2).map
          (fun o₂ => (o₁.1 ++ o₂.1, o₁.2.1.or o₂.2.1, o₂.2.2)))
  | .wb, prev, l =>
    let before := match prev with | some c => wordChar c | none => false
    let after := match l with | c :: _ => wordChar c | [] => false
    if before ≠ after then [([], none, l)] else []
  | .grp r, prev, l =>
    (outcomes r prev l).map (fun o => (o.1, some o.1, o.2.2))

/-- Leftmost match: try the current position, else advance one character;
returns the match (`m[0]`), the capture (`m[1]`) and the rest of the
input after the match. -/
def jsMatchAux (re : RE) : Option Char → List Char → Option Outcome
  | prev, [] => (outcomes re prev []).head?
  | prev, c :: cs =>
    (outcomes re prev (c :: cs)).head?.or (jsMatchAux re (some c) cs)

/-- `s.match(re)` (no `g` flag): the leftmost match and its capture. -/
def jsMatch (re : RE) (s : String) : Option Outcome :=
  jsMatchAux re none s.data

/-! ### Numeric coercion and unit normalization -/

/-- The regex of the numeric coercer: `-?\d+(\.\d+)?`. -/
def numRE : RE :=
  seqs [.opt (.lit ['-']), .plus Char.isDigit,
    .opt (.seq (.lit ['.']) (.plus Char.isDigit))]

/-- Digits to a natural number. -/
def digitsToNat (ds : List Char) : Nat :=
  ds.foldl (fun n c => n * 10 + (c.toNat - 48)) 0

/-- `parseFloat` on a token matched by `numRE` (an optional sign, digits,
optionally a dot and more digits); such a token always denotes an exact
rational. -/
def parseDecimal (t : List Char) : ℚ :=
  let abs := fun (u : List Char) =>
    let intPart := u.takeWhile Char.isDigit
    let rest := u.dropWhile Char.isDigit
    match rest with
    | '.' :: frac =>
      (digitsToNat intPart : ℚ) + (digitsToNat frac : ℚ) / ((10 ^ frac.length : ℕ) : ℚ)
    | _ => (digitsToNat intPart : ℚ)
  match t with
  | '-' :: u => -(abs u)
  | u => abs u

/-- The source's `num`: finite numbers pass through, non-finite numbers and
non-number non-string values are `null`, and a string is scanned for the
first `-?\d+(\.\d+)?` token, which is parsed.  (The `Number.isFinite`
check after `parseFloat` cannot fail in the rational model, where every
parsed token is finite.) -/
def num : JVal → Option ℚ
  | .num q => some q
  | .nan => none
  | .inf => none
  | .ninf => none
  | .str s => (jsMatch numRE s).map (fun m => parseDecimal m.1)
  | _ => none

/-- `Math.round`: the ECMAScript rounding, half toward positive infinity,
is the floor of `x + 1/2`. -/
def jround (x : ℚ) : ℤ := Rat.floor (x + 1/2)

/-- The numeric part of `pct` applied to an already coerced number. -/
def pctQ (n : ℚ) : ℚ :=
  let p := if n ≤ 1 then n * 100 else n
  (jround (p * 10) : ℚ) / 10

/-- The source's `pct`: numbers `≤ 1` are fractions and are scaled by 100,
larger ones are already percentages; the result is rounded to 1 decimal. -/
def pct (v : JVal) : Option ℚ := (num v).map pctQ

/-- The numeric part of `rat` applied to an already coerced number. -/
def ratQ (n : ℚ) : ℚ := (jround (n * 1000) : ℚ) / 1000

/-- The source's `rat`: the coerced number rounded to 3 decimals. -/
def rat (v : JVal) : Option ℚ := (num v).map ratQ

/-- The source's `sumNN`: `a == null || b == null ? null : a + b`. -/
def sumNN (a b : Option ℚ) : Option ℚ :=
  match a, b with
  | some a, some b => some (a + b)
  | _, _ => none

/-! ### Stringification of values reaching the reasons column -/

/-- JavaScript `String(v)`, fuelled so that it reduces in the kernel (the
fuel only matters for nested arrays).  Non-integer numbers are printed as
`num/den`, which differs from the JS shortest-roundtrip decimal form; no
claim exercises that corner.  Array elements follow `join`'s convention:
`null`/`undefined` become the empty string. -/
def jsToStringF : Nat → JVal → String
  | _, .null => "null"
  | _, .undefined => "undefined"
  | _, .num q => if q.den = 1 then toString q.num else toString q
  | _, .nan => "NaN"
  | _, .inf => "Infinity"
  | _, .ninf => "-Infinity"
  | _, .str s => s
  | _, .bool b => if b then "true" else "false"
  | _, .obj _ => "[object Object]"
  | 0, .arr _ => ""
  | f + 1, .arr es =>
    String.intercalate ","
      (es.map (fun e =>
        match e with
        | .null => ""
        | .undefined => ""
        | e => jsToStringF f e))

/-- JavaScript `String(v)`.  The fuel bounds the array nesting depth the
stringification can traverse; no realistic value comes close. -/
def jsToString (v : JVal) : String := jsToStringF 1000000 v

/-- `arr.join("; ")`: elements are stringified, `null`/`undefined` as the
empty string. -/
def joinSemis (es : List JVal) : String :=
  String.intercalate "; "
    (es.map (fun e =>
      match e with
      | .null => ""
      | .undefined => ""
      | e => jsToString e))

/-! ### The narrative patterns of `parseFromReasons`

All patterns carry the `i` flag; matching is modelled by running the
lowercase-transliterated pattern on the lowercased subject. -/

/-- `\bover\s+(\d+)\s+(?:rated\s+)?games\b` -/
def gamesRE : RE :=
  seqs [.wb, .lit "over".data, .plus wsChar, .grp (.plus Char.isDigit),
    .plus wsChar, .opt (.seq (.lit "rated".data) (.plus wsChar)),
    .lit "games".data, .wb]

/-- `\belo\s*ratio[:\s]*([0-9.]+)` -/
def eloRE₁ : RE :=
  seqs [.wb, .lit "elo".data, .star wsChar, .lit "ratio".data,
    .star colonWs, .grp (.plus digitDot)]

/-- `\belo\s*ratio\W+([0-9.]+)` -/
def eloRE₂ : RE :=
  seqs [.wb, .lit "elo".data, .star wsChar, .lit "ratio".data,
    .plus (fun c => !wordChar c), .grp (.plus digitDot)]

/-- `\bEloRatio\s*([0-9.]+)` (case-insensitive) -/
def eloRE₃ : RE :=
  seqs [.wb, .lit "eloratio".data, .star wsChar, .grp (.plus digitDot)]

/-- `\b(?:tourn(?:ament)?)\s+elo\s*ratio[:\s]*([0-9.]+)` -/
def tEloRE₁ : RE :=
  seqs [.wb, .lit "tourn".data, .opt (.lit "ament".data), .plus wsChar,
    .lit "elo".data, .star wsChar, .lit "ratio".data, .star colonWs,
    .grp (.plus digitDot)]

/-- `\bTourn\s*EloRatio\s*([0-9.]+)` (case-insensitive) -/
def tEloRE₂ : RE :=
  seqs [.wb, .lit "tourn".data, .star wsChar, .lit "eloratio".data,
    .star wsChar, .grp (.plus digitDot)]

/-- `\bnon[-\s]?tourn(?:ament)?\s+(?:elo\s*)?ratio[:\s]*([0-9.]+)` -/
def ntEloRE : RE :=
  seqs [.wb, .lit "non".data, .opt (.cls dashWs), .lit "tourn".data,
    .opt (.lit "ament".data), .plus wsChar,
    .opt (.seq (.lit "elo".data) (.star wsChar)), .lit "ratio".data,
    .star colonWs, .grp (.plus digitDot)]

/-- `\(gap\s*([0-9.]+)\s*\)` -/
def gapRE : RE :=
  seqs [.lit "(gap".data, .star wsChar, .grp (.plus digitDot),
    .star wsChar, .lit ")".data]

/-- `\bnon[-\s]?tournament\s+self-bail\s+losses\s+([0-9.]+)%` -/
def ntSelfBailRE₁ : RE :=
  seqs [.wb, .lit "non".data, .opt (.cls dashWs), .lit "tournament".data,
    .plus wsChar, .lit "self-bail".data, .plus wsChar, .lit "losses".data,
    .plus wsChar, .grp (.plus digitDot), .lit "%".data]

/-- `\bNT\s+self-bail\s+loss(?:es)?\s+([0-9.]+)%` (case-insensitive) -/
def ntSelfBailRE₂ : RE :=
  seqs [.wb, .lit "nt".data, .plus wsChar, .lit "self-bail".data,
    .plus wsChar, .lit "loss".data, .opt (.lit "es".data), .plus wsChar,
    .grp (.plus digitDot), .lit "%".data]

/-- `\b(\d+)\s+upset\s+wins?\b` -/
def upsetsRE : RE :=
  seqs [.wb, .grp (.plus Char.isDigit), .plus wsChar, .lit "upset".data,
    .plus wsChar, .lit "win".data, .opt (.lit "s".data), .wb]

/-- The record returned by `parseFromReasons`. -/
structure Parsed where
  games : Option ℚ
  elo : Option ℚ
  tElo : Option ℚ
  ntElo : Option ℚ
  gap : Option ℚ
  ntSelfBail : Option ℚ
  upsets : Option ℚ

/-- `m ? f(m[1]) : null` for a match attempt: the capture (`m[1]`,
`undefined` when the group did not participate) is handed to the given
conversion. -/
def capConv (f : JVal → Option ℚ) : Option Outcome → Option ℚ
  | some (_, some c, _) => f (.str (String.mk c))
  | some (_, none, _) => f .undefined
  | none => none

/-- The source's `parseFromReasons(reasons)`: `R = String(reasons ?? "")`,
then each fact is extracted independently by its pattern(s). -/
def parseFromReasons (reasons : JVal) : Parsed :=
  let R := jsToString (if isNullish reasons then .str "" else reasons)
  let Rl := R.data.map Char.toLower
  { games := capConv num (jsMatchAux gamesRE none Rl)
    elo := capConv rat
      (((jsMatchAux eloRE₁ none Rl).or (jsMatchAux eloRE₂ none Rl)).or
        (jsMatchAux eloRE₃ none Rl))
    tElo := capConv rat
      ((jsMatchAux tEloRE₁ none Rl).or (jsMatchAux tEloRE₂ none Rl))
    ntElo := capConv rat (jsMatchAux ntEloRE none Rl)
    gap := capConv rat (jsMatchAux gapRE none Rl)
    ntSelfBail := capConv pct
      ((jsMatchAux ntSelfBailRE₁ none Rl).or (jsMatchAux ntSelfBailRE₂ none Rl))
    upsets := capConv num (jsMatchAux upsetsRE none Rl) }

/-! ### The alias bundles `A` of the source -/

namespace A

def suspicion : List String := ["suspicion_score", "suspicion", "score"]
def recentGames : List String :=
  ["recent_games", "recent games", "games", "lifetime_games", "lifetime games"]
def recentWins : List String := ["recent_wins", "recent wins", "wins"]
def recentDraws : List String := ["recent_draws", "recent draws", "draws"]
def recentLosses : List String := ["recent_losses", "recent losses", "losses"]
def streak : List String := ["win_streak", "streak", "stk"]
def maxStreak : List String := ["max_win_streak", "max streak", "maxstk", "max win streak"]
def upsetWins : List String := ["upset_wins", "upsets", "upset"]
def shortWinRate : List String :=
  ["short_win_rate", "short win rate", "shortw%", "short_win%", "shortwin%"]
def timeoutWinRatio : List String :=
  ["timeout_win_ratio", "timeout win ratio", "to/res%", "timeout%"]
def tGames : List String := ["t_games", "t games", "tournament_games", "tournament games"]
def tWins : List String := ["t_wins", "t wins", "tournament_wins", "tournament wins", "tw"]
def tDraws : List String := ["t_draws", "t draws", "tournament_draws", "tournament draws", "td"]
def tLosses : List String :=
  ["t_losses", "t losses", "tournament_losses", "tournament losses", "tl"]
def tWR : List String := ["tourn_win_rate", "tournament win rate", "twr", "twr%"]
def ntGames : List String :=
  ["nt_games", "nt games", "non_tourn_games", "non tournament games", "non_tournament_games"]
def ntWins : List String :=
  ["nt_wins", "nt wins", "non_tourn_wins", "non tournament wins", "non_tournament_wins"]
def ntDraws : List String :=
  ["nt_draws", "nt draws", "non_tourn_draws", "non tournament draws", "non_tournament_draws"]
def ntLosses : List String :=
  ["nt_losses", "nt losses", "non_tourn_losses", "non tournament losses", "non_tournament_losses"]
def ntWR : List String := ["non_tourn_win_rate", "non tournament win rate", "ntwr", "ntwr%"]
def eloGain : List String := ["elo_gain", "elo gain"]
def eloLoss : List String := ["elo_loss", "elo loss"]
def eloRatio : List String := ["elo_ratio", "elo ratio", "elor"]
def tEloGain : List String := ["tourn_elo_gain", "t elo gain", "t_elo_gain"]
def tEloLoss : List String := ["tourn_elo_loss", "t elo loss", "t_elo_loss"]
def tEloRatio : List String :=
  ["tourn_elo_ratio", "t elo ratio", "t_elo_ratio", "telor", "t elor", "t eloratio"]
def ntEloGain : List String := ["non_tourn_elo_gain", "nt elo gain", "nt_elo_gain"]
def ntEloLoss : List String := ["non_tourn_elo_loss", "nt elo loss", "nt_elo_loss"]
def ntEloRatio : List String := ["non_tourn_elo_ratio", "nt elo ratio", "nt_elo_ratio", "ntelor"]
def wrGap : List String := ["wr_gap", "wr gap", "Δwr", "wr gap (t − nt)", "wr gap (t-nt)"]
def eloRatioGap : List String := ["elo_ratio_gap", "elo ratio gap", "Δelor"]
def tSelfBail : List String := ["t_self_bail_loss_ratio", "t-selfto%"]
def ntSelfBail : List String := ["nt_self_bail_loss_ratio", "nt-selfto%"]
def reasons : List String := ["reasons"]

end A

/-! ### Per-field resolution of `buildDownloadCsvRowsStrict`

The body of the source's `map` callback is decomposed into one definition
per local variable; `r` is the structured source (`row.result ?? {}`) and
`csv` the side-table row for the entity. -/

/-- The reasons string:
array results are joined with `"; "`, string results pass through, else the
side table's `reasons` column (or `""`). -/
def reasonsStrOf (r csv : JVal) : JVal :=
  match getProp r "reasons" with
  | .arr es => .str (joinSemis es)
  | .str s => .str s
  | _ =>
    let g := getCSV csv A.reasons
    if isNullish g then .str "" else g

/-- The parsed narrative facts for the entity. -/
def parsedOf (r csv : JVal) : Parsed := parseFromReasons (reasonsStrOf r csv)

/-- `suspicion_score`: raw structured value, else coerced side-table value,
else `null`. -/
def suspicionOf (r csv : JVal) : JVal :=
  let p := pick r ["suspicion_score", "suspicion.score"]
  if isNullish p then
    match num (getCSV csv A.suspicion) with
    | some q => .num q
    | none => .null
  else p

def t_gamesOf (r csv : JVal) : Option ℚ :=
  (num (pick r ["tournament.games", "t.games", "tourn.games"])).or
    (num (getCSV csv A.tGames))

def t_winsOf (r csv : JVal) : Option ℚ :=
  (num (pick r ["tournament.wins", "t.wins", "tourn.wins"])).or
    (num (getCSV csv A.tWins))

def t_drawsOf (r csv : JVal) : Option ℚ :=
  (num (pick r ["tournament.draws", "t.draws", "tourn.draws"])).or
    (num (getCSV csv A.tDraws))

def t_lossesOf (r csv : JVal) : Option ℚ :=
  (num (pick r ["tournament.losses", "t.losses", "tourn.losses"])).or
    (num (getCSV csv A.tLosses))

/-- `tWR` before the rate-from-counts fill. -/
def tWR₀Of (r csv : JVal) : Option ℚ :=
  (pct (pick r ["tournament.win_rate", "t.win_rate"])).or (pct (getCSV csv A.tWR))

def nt_gamesOf (r csv : JVal) : Option ℚ :=
  (num (pick r ["non_tournament.games", "nt.games"])).or (num (getCSV csv A.ntGames))

def nt_winsOf (r csv : JVal) : Option ℚ :=
  (num (pick r ["non_tournament.wins", "nt.wins"])).or (num (getCSV csv A.ntWins))

def nt_drawsOf (r csv : JVal) : Option ℚ :=
  (num (pick r ["non_tournament.draws", "nt.draws"])).or (num (getCSV csv A.ntDraws))

def nt_lossesOf (r csv : JVal) : Option ℚ :=
  (num (pick r ["non_tournament.losses", "nt.losses"])).or (num (getCSV csv A.ntLosses))

/-- `ntWR` before the rate-from-counts fill. -/
def ntWR₀Of (r csv : JVal) : Option ℚ :=
  (pct (pick r ["non_tournament.win_rate", "nt.win_rate"])).or (pct (getCSV csv A.ntWR))

/-- `tourn_win_rate` after the fill: `if (tWR == null && t_wins != null &&
t_games && t_games > 0) tWR = Math.round(((t_wins / t_games) * 100) * 10) / 10`
(a truthy `t_games` with `t_games > 0` is exactly `0 < g`). -/
def tWROf (r csv : JVal) : Option ℚ :=
  match tWR₀Of r csv with
  | some x => some x
  | none =>
    match t_winsOf r csv, t_gamesOf r csv with
    | some w, some g => if 0 < g then some ((jround (w / g * 100 * 10) : ℚ) / 10) else none
    | _, _ => none

/-- `non_tourn_win_rate` after the fill. -/
def ntWROf (r csv : JVal) : Option ℚ :=
  match ntWR₀Of r csv with
  | some x => some x
  | none =>
    match nt_winsOf r csv, nt_gamesOf r csv with
    | some w, some g => if 0 < g then some ((jround (w / g * 100 * 10) : ℚ) / 10) else none
    | _, _ => none

/-- `recent_games` through tiers 1-3 (structured paths, side table,
narrative). -/
def recent_games₀Of (r csv : JVal) : Option ℚ :=
  ((num (pick r ["totals.games", "lifetime_games", "recent.games", "games"])).or
    (num (getCSV csv A.recentGames))).or (parsedOf r csv).games

/-- `recent_games` after the `??=` fallback to the tournament split sum. -/
def recent_gamesOf (r csv : JVal) : Option ℚ :=
  (recent_games₀Of r csv).or (sumNN (t_gamesOf r csv) (nt_gamesOf r csv))

def recent_wins₀Of (r csv : JVal) : Option ℚ :=
  (num (pick r ["totals.wins", "wins"])).or (num (getCSV csv A.recentWins))

def recent_winsOf (r csv : JVal) : Option ℚ :=
  (recent_wins₀Of r csv).or (sumNN (t_winsOf r csv) (nt_winsOf r csv))

def recent_draws₀Of (r csv : JVal) : Option ℚ :=
  (num (pick r ["totals.draws", "draws"])).or (num (getCSV csv A.recentDraws))

def recent_drawsOf (r csv : JVal) : Option ℚ :=
  (recent_draws₀Of r csv).or (sumNN (t_drawsOf r csv) (nt_drawsOf r csv))

def recent_losses₀Of (r csv : JVal) : Option ℚ :=
  (num (pick r ["totals.losses", "losses"])).or (num (getCSV csv A.recentLosses))

def recent_lossesOf (r csv : JVal) : Option ℚ :=
  (recent_losses₀Of r csv).or (sumNN (t_lossesOf r csv) (nt_lossesOf r csv))

/-- `win_streak = getCSV(csv, A.streak) ?? pick(r, ["streak"]) ?? null`
(note: the side table is consulted before the structured source, and no
numeric coercion is applied). -/
def win_streakOf (r csv : JVal) : JVal :=
  let g := getCSV csv A.streak
  if isNullish g then
    let p := pick r ["streak"]
    if isNullish p then .null else p
  else g

/-- `max_win_streak = getCSV(csv, A.maxStreak) ?? pick(r, ["max_streak"]) ?? null`. -/
def max_win_streakOf (r csv : JVal) : JVal :=
  let g := getCSV csv A.maxStreak
  if isNullish g then
    let p := pick r ["max_streak"]
    if isNullish p then .null else p
  else g

/-- `upset_wins = getCSV(csv, A.upsetWins) ?? pick(r, ["upset_wins"])`,
then filled from the narrative if still nullish. -/
def upset_winsOf (r csv : JVal) : JVal :=
  let g := getCSV csv A.upsetWins
  let u := if isNullish g then pick r ["upset_wins"] else g
  if isNullish u then
    match (parsedOf r csv).upsets with
    | some q => .num q
    | none => u
  else u

def short_win_rateOf (r csv : JVal) : Option ℚ :=
  (pct (pick r ["ratios.short_win_rate", "short_win_rate"])).or
    (pct (getCSV csv A.shortWinRate))

def timeout_win_ratioOf (r csv : JVal) : Option ℚ :=
  (pct (pick r ["ratios.timeout_win_ratio", "timeout_win_ratio"])).or
    (pct (getCSV csv A.timeoutWinRatio))

def elo_gainOf (r csv : JVal) : Option ℚ :=
  (num (pick r ["totals.elo.gain", "elo.gain"])).or (num (getCSV csv A.eloGain))

def elo_lossOf (r csv : JVal) : Option ℚ :=
  (num (pick r ["totals.elo.loss", "elo.loss"])).or (num (getCSV csv A.eloLoss))

def elo_ratioOf (r csv : JVal) : Option ℚ :=
  ((rat (pick r ["totals.elo.ratio", "elo.ratio"])).or
    (rat (getCSV csv A.eloRatio))).or (parsedOf r csv).elo

def t_elo_gainOf (r csv : JVal) : Option ℚ :=
  (num (pick r ["tournament.elo.gain", "t.elo.gain"])).or (num (getCSV csv A.tEloGain))

def t_elo_lossOf (r csv : JVal) : Option ℚ :=
  (num (pick r ["tournament.elo.loss", "t.elo.loss"])).or (num (getCSV csv A.tEloLoss))

def t_elo_ratioOf (r csv : JVal) : Option ℚ :=
  ((rat (pick r ["tournament.elo.ratio", "t.elo.ratio"])).or
    (rat (getCSV csv A.tEloRatio))).or (parsedOf r csv).tElo

def nt_elo_gainOf (r csv : JVal) : Option ℚ :=
  (num (pick r ["non_tournament.elo.gain", "nt.elo.gain"])).or
    (num (getCSV csv A.ntEloGain))

def nt_elo_lossOf (r csv : JVal) : Option ℚ :=
  (num (pick r ["non_tournament.elo.loss", "nt.elo.loss"])).or
    (num (getCSV csv A.ntEloLoss))

def nt_elo_ratioOf (r csv : JVal) : Option ℚ :=
  ((rat (pick r ["non_tournament.elo.ratio", "nt.elo.ratio"])).or
    (rat (getCSV csv A.ntEloRatio))).or (parsedOf r csv).ntElo

/-- `wr_gap`: computed from both win rates when known, else the side
table's gap column. -/
def wr_gapOf (r csv : JVal) : Option ℚ :=
  match tWROf r csv, ntWROf r csv with
  | some a, some b => some ((jround ((a - b) * 10) : ℚ) / 10)
  | _, _ => pct (getCSV csv A.wrGap)

/-- `elo_ratio_gap`: computed from both elo ratios when known, else the
side table's gap column, else the narrative gap. -/
def elo_ratio_gapOf (r csv : JVal) : Option ℚ :=
  match t_elo_ratioOf r csv, nt_elo_ratioOf r csv with
  | some a, some b => some (ratQ (a - b))
  | _, _ => (rat (getCSV csv A.eloRatioGap)).or (parsedOf r csv).gap

def t_self_bailOf (r csv : JVal) : Option ℚ :=
  (pct (pick r ["ratios.self_bail_loss_ratio_t"])).or (pct (getCSV csv A.tSelfBail))

def nt_self_bailOf (r csv : JVal) : Option ℚ :=
  ((pct (pick r ["ratios.self_bail_loss_ratio_nt"])).or
    (pct (getCSV csv A.ntSelfBail))).or (parsedOf r csv).ntSelfBail

/-! ### The canonical row -/

/-- The output record of `buildDownloadCsvRowsStrict`, one field per key of
the object literal it returns, in the same order.  Fields the source
computes through `num`/`pct`/`rat` have type `Option ℚ` (`number | null`);
`suspicion_score`, `win_streak`, `max_win_streak`, `upset_wins` and
`reasons` are passed through raw and keep type `JVal`. -/
structure Row where
  username : String
  suspicion_score : JVal
  recent_games : Option ℚ
  recent_wins : Option ℚ
  recent_draws : Option ℚ
  recent_losses : Option ℚ
  win_streak : JVal
  max_win_streak : JVal
  upset_wins : JVal
  short_win_rate : Option ℚ
  timeout_win_ratio : Option ℚ
  tourn_games : Option ℚ
  tourn_wins : Option ℚ
  tourn_draws : Option ℚ
  tourn_losses : Option ℚ
  non_tourn_games : Option ℚ
  non_tourn_wins : Option ℚ
  non_tourn_draws : Option ℚ
  non_tourn_losses : Option ℚ
  tourn_win_rate : Option ℚ
  non_tourn_win_rate : Option ℚ
  wr_gap : Option ℚ
  elo_gain : Option ℚ
  elo_loss : Option ℚ
  elo_ratio : Option ℚ
  tourn_elo_gain : Option ℚ
  tourn_elo_loss : Option ℚ
  tourn_elo_ratio : Option ℚ
  non_tourn_elo_gain : Option ℚ
  non_tourn_elo_loss : Option ℚ
  non_tourn_elo_ratio : Option ℚ
  elo_ratio_gap : Option ℚ
  t_self_bail_loss_ratio : Option ℚ
  nt_self_bail_loss_ratio : Option ℚ
  reasons : JVal

/-- Reconciliation of one entity from its structured source `r` and its
side-table row `csv` (the body of the source's `map` callback). -/
def reconcileRow (username : String) (r csv : JVal) : Row where
  username := username
  suspicion_score := suspicionOf r csv
  recent_games := recent_gamesOf r csv
  recent_wins := recent_winsOf r csv
  recent_draws := recent_drawsOf r csv
  recent_losses := recent_lossesOf r csv
  win_streak := win_streakOf r csv
  max_win_streak := max_win_streakOf r csv
  upset_wins := upset_winsOf r csv
  short_win_rate := short_win_rateOf r csv
  timeout_win_ratio := timeout_win_ratioOf r csv
  tourn_games := t_gamesOf r csv
  tourn_wins := t_winsOf r csv
  tourn_draws := t_drawsOf r csv
  tourn_losses := t_lossesOf r csv
  non_tourn_games := nt_gamesOf r csv
  non_tourn_wins := nt_winsOf r csv
  non_tourn_draws := nt_drawsOf r csv
  non_tourn_losses := nt_lossesOf r csv
  tourn_win_rate := tWROf r csv
  non_tourn_win_rate := ntWROf r csv
  wr_gap := wr_gapOf r csv
  elo_gain := elo_gainOf r csv
  elo_loss := elo_lossOf r csv
  elo_ratio := elo_ratioOf r csv
  tourn_elo_gain := t_elo_gainOf r csv
  tourn_elo_loss := t_elo_lossOf r csv
  tourn_elo_ratio := t_elo_ratioOf r csv
  non_tourn_elo_gain := nt_elo_gainOf r csv
  non_tourn_elo_loss := nt_elo_lossOf r csv
  non_tourn_elo_ratio := nt_elo_ratioOf r csv
  elo_ratio_gap := elo_ratio_gapOf r csv
  t_self_bail_loss_ratio := t_self_bailOf r csv
  nt_self_bail_loss_ratio := nt_self_bailOf r csv
  reasons := reasonsStrOf r csv

/-- Lowercasing of a string (`String.prototype.toLowerCase`, ASCII). -/
def lowerStr (s : String) : String := String.mk (s.data.map Char.toLower)

/-- `csvByUser[username.toLowerCase()]` on the csv-by-user map. -/
def lookupCsv (m : List (String × JVal)) (k : String) : JVal :=
  match m.find? (fun kv => kv.1 == k) with
  | some kv => kv.2
  | none => .undefined

/-- One entry of `finishedRows`: `{ username, result }`. -/
abbrev InRow : Type := String × JVal

/-- The `map` step of `buildDownloadCsvRowsStrict`:
`r = row.result ?? {}`, `csv = csvByUser[row.username.toLowerCase()]`. -/
def buildRow (fr : InRow) (csvByUser : List (String × JVal)) : Row :=
  reconcileRow fr.1 (if isNullish fr.2 then .obj [] else fr.2)
    (lookupCsv csvByUser (lowerStr fr.1))

/-! ### The sort -/

/-- Strict code-point lexicographic order on character lists. -/
def strLtb : List Char → List Char → Bool
  | [], [] => false
  | [], _ :: _ => true
  | _ :: _, [] => false
  | a :: as, b :: bs => if a < b then true else if b < a then false else strLtb as bs

/-- The lowercased characters of a username. -/
def lowData (s : String) : List Char := s.data.map Char.toLower

/-- The model of `a.localeCompare(b) <= 0` on the lowercased usernames:
code-point order, which agrees with the default collation on the ASCII
identities considered here. -/
def nameLE (a b : Row) : Bool := !(strLtb (lowData b.username) (lowData a.username))

/-- The comparator of the final sort, as the predicate "may come before":
`rowLE a b` holds iff the comparator returns a non-positive value on
`(a, b)`, i.e. suspicion score descending with unknown (`num` fails) as
minus infinity, then lowercased username ascending. -/
def rowLE (a b : Row) : Bool :=
  match num a.suspicion_score, num b.suspicion_score with
  | some x, some y => if x = y then nameLE a b else decide (y < x)
  | some _, none => true
  | none, some _ => false
  | none, none => nameLE a b

/-- The comparator-induced total preorder. -/
def rowRel (a b : Row) : Prop := rowLE a b = true

instance : DecidableRel rowRel := fun _ _ => decEq _ _

/-- Two rows the comparator ties completely (equal sort keys); the sort
must not reorder such rows. -/
def rowTie (a b : Row) : Prop := rowRel a b ∧ rowRel b a

/-- The sort step: `Array.prototype.sort` is stable and the comparator is
consistent, so the result is the unique stable sort by `rowRel`, here
computed by insertion sort. -/
def sortRows (rows : List Row) : List Row := List.insertionSort rowRel rows

/-- The whole `buildDownloadCsvRowsStrict`. -/
def buildDownloadCsvRowsStrict (finishedRows : List InRow)
    (csvByUser : List (String × JVal)) : List Row :=
  sortRows (finishedRows.map (fun fr => buildRow fr csvByUser))

/-! ### The memoized normalized-key index (the stateful `getCSV`)

The source's `getCSV` attaches, on first use, a `__normIndex` property to
the row via `Object.defineProperty(csv, "__normIndex", { value: idx,
enumerable: false })`.  A row object is modelled as its enumerable own
properties (`entries`, what `Object.entries` and `JSON.stringify` see)
together with the non-enumerable cache slot (`normIndex`); the
`defineProperty` call writes only the latter. -/

structure CsvObj where
  entries : List (String × JVal)
  normIndex : Option (List (String × JVal))

/-- `Object.entries` of the row: its enumerable own properties.  The
non-enumerable `__normIndex` slot is invisible here, exactly as
`enumerable: false` makes it invisible to iteration and serialization. -/
def objectEntries (o : CsvObj) : List (String × JVal) := o.entries

/-- The source's `getCSV` on a row object, with its caching side effect:
if no `__normIndex` is present the index is built from the enumerable
entries and stored in the non-enumerable slot; the alias lookup then runs
against the index. -/
def getCSVCached (o : CsvObj) (aliases : List String) : JVal × CsvObj :=
  match o.normIndex with
  | some idx => (lookupAliases idx aliases, o)
  | none =>
    let idx := buildIdx o.entries
    (lookupAliases idx aliases, { o with normIndex := some idx })

/-- A sequence of alias lookups against the same row, threading the
possibly-mutated row through. -/
def runQueries (o : CsvObj) : List (List String) → List JVal × CsvObj
  | [] => ([], o)
  | q :: qs =>
    let vo := getCSVCached o q
    let rest := runQueries vo.2 qs
    (vo.1 :: rest.1, rest.2)

/-! ### Matching `matchAll`: the token sequence of the numeric coercer

The claims about `num` quantify over the numeral tokens a string contains;
the token sequence is obtained by iterating the leftmost match from the
end of the previous match, like `String.prototype.matchAll` (the `numRE`
pattern can never match the empty string, so the iteration always
advances; the fuel is one more than the string length, which the
iteration can never exhaust). -/

def tokensAux (re : RE) : Nat → Option Char → List Char → List String
  | 0, _, _ => []
  | fuel + 1, prev, l =>
    match jsMatchAux re prev l with
    | none => []
    | some (m, _, rest) => String.mk m :: tokensAux re fuel (m.getLast?.or prev) rest

/-- The successive `-?\d+(\.\d+)?` tokens of a string, leftmost first. -/
def numTokens (s : String) : List String :=
  tokensAux numRE (s.data.length + 1) none s.data

/-! ### Rounding lemmas -/

theorem jround_le (x : ℚ) : (jround x : ℚ) ≤ x + 1/2 :=
  Rat.le_floor.1 le_rfl

theorem lt_jround (x : ℚ) : x - 1/2 < (jround x : ℚ) := by
  by_contra h
  push_neg at h
  have h2 : ((jround x + 1 : ℤ) : ℚ) ≤ x + 1/2 := by push_cast; linarith
  have h3 : jround x + 1 ≤ jround x := Rat.le_floor.2 h2
  omega

theorem pct_some {v : JVal} {n : ℚ} (h : num v = some n) : pct v = some (pctQ n) := by
  simp [pct, h]

theorem rat_some {v : JVal} {n : ℚ} (h : num v = some n) : rat v = some (ratQ n) := by
  simp [rat, h]

/-! ### Claim C5 -/

/-- C5: when the coercion yields a finite number `n`, `pct` treats `n ≤ 1`
as a fraction (scaled by 100) and anything larger as a percentage, each
rounded to one decimal; at the boundary `pct 1 = 100`, and
`pct 0.5 = 50`, `pct 42 = 42`. -/
theorem C5_asPercent_fraction_boundary :
    (∀ v n, num v = some n → n ≤ 1 →
      pct v = some ((jround (n * 100 * 10) : ℚ) / 10))
    ∧ (∀ v n, num v = some n → 1 < n →
      pct v = some ((jround (n * 10) : ℚ) / 10))
    ∧ pct (.num 1) = some 100
    ∧ pct (.num (1/2)) = some 50
    ∧ pct (.num 42) = some 42 := by
  refine ⟨?_, ?_, by decide, by decide, by decide⟩
  · intro v n h hle
    rw [pct_some h]
    simp [pctQ, hle]
  · intro v n h hlt
    rw [pct_some h]
    simp [pctQ, not_le.2 hlt]

/-- Witness for C5 at the boundary input `1` and at `42`. -/
theorem C5_witness :
    (num (JVal.num 1) = some 1 ∧ (1 : ℚ) ≤ 1
      ∧ pct (JVal.num 1) = some ((jround ((1 : ℚ) * 100 * 10) : ℚ) / 10))
    ∧ (num (JVal.num 42) = some 42 ∧ (1 : ℚ) < 42
      ∧ pct (JVal.num 42) = some ((jround ((42 : ℚ) * 10) : ℚ) / 10)) :=
  ⟨⟨rfl, by decide, C5_asPercent_fraction_boundary.1 _ 1 rfl (by decide)⟩,
   ⟨rfl, by decide, C5_asPercent_fraction_boundary.2.1 _ 42 rfl (by decide)⟩⟩

/-! ### Claim C6 -/

/-- C6 counterexample: the source rounds with `Math.round` (half toward
positive infinity), not half away from zero: `rat` applied to `-0.0005`
yields `0`, not the `-0.001` the claim states. -/
theorem C6_counterexample :
    rat (JVal.num (-(1/2000))) = some 0 ∧ (0 : ℚ) ≠ -(1/1000) := by
  exact ⟨by decide, by decide⟩

/-- C6 amended: both normalizers round with `Math.round`, i.e. the floor
of `value + 1/2` (round half toward positive infinity, which agrees with
half away from zero on nonnegative scaled values), applied to `value*10`
and `value*1000`; `jround x` is the unique integer in `(x-1/2, x+1/2]`;
`asRatio3 1.23456 = 1.235` and `asRatio3 (-0.0005) = 0`. -/
theorem C6_rounding_half_toward_posinf :
    (∀ v n, num v = some n →
      pct v = some ((jround ((if n ≤ 1 then n * 100 else n) * 10) : ℚ) / 10))
    ∧ (∀ v n, num v = some n → rat v = some ((jround (n * 1000) : ℚ) / 1000))
    ∧ (∀ x : ℚ, x - 1/2 < (jround x : ℚ) ∧ (jround x : ℚ) ≤ x + 1/2)
    ∧ rat (.num (123456/100000)) = some (1235/1000)
    ∧ rat (.num (-(1/2000))) = some 0 := by
  refine ⟨?_, ?_, fun x => ⟨lt_jround x, jround_le x⟩, by decide, by decide⟩
  · intro v n h
    rw [pct_some h]
    rfl
  · intro v n h
    rw [rat_some h]
    rfl

/-- Witness for C6 at `1.23456` and `-0.0005`. -/
theorem C6_witness :
    (num (JVal.num (123456/100000)) = some (123456/100000)
      ∧ rat (JVal.num (123456/100000))
        = some ((jround ((123456/100000 : ℚ) * 1000) : ℚ) / 1000))
    ∧ (num (JVal.num (-(1/2000))) = some (-(1/2000))
      ∧ rat (JVal.num (-(1/2000)))
        = some ((jround ((-(1/2000) : ℚ) * 1000) : ℚ) / 1000)) :=
  ⟨⟨rfl, C6_rounding_half_toward_posinf.2.1 _ _ rfl⟩,
   ⟨rfl, C6_rounding_half_toward_posinf.2.1 _ _ rfl⟩⟩

/-! ### Claim C7 -/

/-- C7 counterexample: `pct` is not confined to `[0, ∞)`: the finite
negative input `-5` is treated as a fraction and scaled to `-500`. -/
theorem C7_counterexample :
    pct (JVal.num (-5)) = some (-500) ∧ ¬ (0 : ℚ) ≤ -500 := by
  exact ⟨by decide, by decide⟩

/-- C7 amended: for every input, `pct` is either unknown or a number
rounded to 1 decimal place (an integer multiple of `1/10`; negative
results are possible, so no lower bound holds). -/
theorem C7_asPercent_unknown_or_one_decimal (v : JVal) :
    pct v = none ∨ ∃ k : ℤ, pct v = some ((k : ℚ) / 10) := by
  cases h : num v with
  | none => exact Or.inl (by simp [pct, h])
  | some n => exact Or.inr ⟨jround ((if n ≤ 1 then n * 100 else n) * 10), by rw [pct_some h]; rfl⟩

/-! ### Claim C8 -/

/-- C8: the numeric coercer is total: finite numbers pass through,
non-finite numbers, nullish values and non-number non-string values are
unknown, and a string is scanned left-to-right for its first signed
decimal numeral token, whose parse is returned; a string with no token is
unknown. -/
theorem C8_numeric_coercer :
    (∀ q, num (.num q) = some q)
    ∧ num .nan = none ∧ num .inf = none ∧ num .ninf = none
    ∧ num .null = none ∧ num .undefined = none
    ∧ (∀ b, num (.bool b) = none)
    ∧ (∀ fs, num (.obj fs) = none)
    ∧ (∀ es, num (.arr es) = none)
    ∧ (∀ s t ts, numTokens s = t :: ts → num (.str s) = some (parseDecimal t.data))
    ∧ (∀ s, numTokens s = [] → num (.str s) = none) := by
  refine ⟨fun q => rfl, rfl, rfl, rfl, rfl, rfl, fun b => rfl, fun fs => rfl,
    fun es => rfl, ?_, ?_⟩
  · intro s t ts h
    unfold numTokens tokensAux at h
    cases hm : jsMatchAux numRE none s.data with
    | none => rw [hm] at h; simp at h
    | some out =>
      rw [hm] at h
      simp only [List.cons.injEq] at h
      show (jsMatch numRE s).map (fun m => parseDecimal m.1) = _
      rw [jsMatch, hm, ← h.1]
      rfl
  · intro s h
    unfold numTokens tokensAux at h
    cases hm : jsMatchAux numRE none s.data with
    | none =>
      show (jsMatch numRE s).map (fun m => parseDecimal m.1) = none
      rw [jsMatch, hm]
      rfl
    | some out => rw [hm] at h; simp at h

/-- Witness for C8: the string `"abc-12.5x"` has the single token
`"-12.5"` and coerces to its parse `-12.5`; `"x%@"` has no token and
coerces to unknown. -/
theorem C8_witness :
    (numTokens "abc-12.5x" = ["-12.5"]
      ∧ num (.str "abc-12.5x") = some (parseDecimal "-12.5".data)
      ∧ parseDecimal "-12.5".data = -(25/2))
    ∧ (numTokens "x%@" = [] ∧ num (.str "x%@") = none) :=
  ⟨⟨by decide, C8_numeric_coercer.2.2.2.2.2.2.2.2.2.1 "abc-12.5x" "-12.5" [] (by decide),
    by decide⟩,
   ⟨by decide, C8_numeric_coercer.2.2.2.2.2.2.2.2.2.2 "x%@" (by decide)⟩⟩

/-! ### Claim C9 -/

/-- C9: the aggregate-from-splits derivation is last-resort and
null-propagating: each `recent_*` field falls back to the tournament plus
non-tournament sum exactly when tiers 1-3 produced nothing, a direct
tier 1-3 value always wins, and `sumNN` is unknown as soon as either
addend is. -/
theorem C9_aggregate_from_splits :
    (∀ u r csv, recent_games₀Of r csv = none →
      (reconcileRow u r csv).recent_games = sumNN (t_gamesOf r csv) (nt_gamesOf r csv))
    ∧ (∀ u r csv, recent_wins₀Of r csv = none →
      (reconcileRow u r csv).recent_wins = sumNN (t_winsOf r csv) (nt_winsOf r csv))
    ∧ (∀ u r csv, recent_draws₀Of r csv = none →
      (reconcileRow u r csv).recent_draws = sumNN (t_drawsOf r csv) (nt_drawsOf r csv))
    ∧ (∀ u r csv, recent_losses₀Of r csv = none →
      (reconcileRow u r csv).recent_losses = sumNN (t_lossesOf r csv) (nt_lossesOf r csv))
    ∧ (∀ u r csv n, recent_games₀Of r csv = some n →
      (reconcileRow u r csv).recent_games = some n)
    ∧ (∀ u r csv n, recent_wins₀Of r csv = some n →
      (reconcileRow u r csv).recent_wins = some n)
    ∧ (∀ u r csv n, recent_draws₀Of r csv = some n →
      (reconcileRow u r csv).recent_draws = some n)
    ∧ (∀ u r csv n, recent_losses₀Of r csv = some n →
      (reconcileRow u r csv).recent_losses = some n)
    ∧ (∀ a b : ℚ, sumNN (some a) (some b) = some (a + b))
    ∧ (∀ b, sumNN none b = none)
    ∧ (∀ a, sumNN a none = none) := by
  refine ⟨?_, ?_, ?_, ?_, ?_, ?_, ?_, ?_, fun a b => rfl, fun b => rfl,
    fun a => by cases a <;> rfl⟩
  · intro u r csv h
    show recent_gamesOf r csv = _
    rw [recent_gamesOf, h, Option.none_or]
  · intro u r csv h
    show recent_winsOf r csv = _
    rw [recent_winsOf, h, Option.none_or]
  · intro u r csv h
    show recent_drawsOf r csv = _
    rw [recent_drawsOf, h, Option.none_or]
  · intro u r csv h
    show recent_lossesOf r csv = _
    rw [recent_lossesOf, h, Option.none_or]
  · intro u r csv n h
    show recent_gamesOf r csv = _
    rw [recent_gamesOf, h, Option.or_some]
  · intro u r csv n h
    show recent_winsOf r csv = _
    rw [recent_winsOf, h, Option.or_some]
  · intro u r csv n h
    show recent_drawsOf r csv = _
    rw [recent_drawsOf, h, Option.or_some]
  · intro u r csv n h
    show recent_lossesOf r csv = _
    rw [recent_lossesOf, h, Option.or_some]

/-- The structured source of the C9 witness: tournament games known (10),
non-tournament games unknown, no direct recent-games value anywhere. -/
def c9r : JVal := .obj [("tournament", .obj [("games", .num 10)])]

/-- Witness for C9: with tournament games 10 and non-tournament games
unknown, the derived recent games is unknown, not 10. -/
theorem C9_witness :
    recent_games₀Of c9r .undefined = none
    ∧ t_gamesOf c9r .undefined = some 10
    ∧ nt_gamesOf c9r .undefined = none
    ∧ (reconcileRow "u" c9r .undefined).recent_games = none := by
  refine ⟨by decide, by decide, by decide, ?_⟩
  rw [C9_aggregate_from_splits.1 "u" c9r .undefined (by decide)]
  decide

/-! ### Claim C10 -/

/-- C10: the memoized normalized-key index never changes the value set
other consumers of the row observe: after any sequence of alias lookups
the enumerable entries of the row (what iteration and serialization see)
are exactly the original ones, and the lookups return the same results as
fresh lookups against the untouched row (so repetition is stable). -/
theorem C10_cache_invisible :
    (∀ o qs, objectEntries (runQueries o qs).2 = objectEntries o)
    ∧ (∀ o qs, (runQueries o qs).1 = qs.map (fun q => (getCSVCached o q).1)) := by
  have entries1 : ∀ o q, ((getCSVCached o q).2).entries = o.entries := by
    intro o q
    obtain ⟨e, ni⟩ := o
    cases ni <;> rfl
  have idem : ∀ o q q', (getCSVCached ((getCSVCached o q).2) q').1 = (getCSVCached o q').1 := by
    intro o q q'
    obtain ⟨e, ni⟩ := o
    cases ni <;> rfl
  have main : ∀ qs o, ((runQueries o qs).2).entries = o.entries
      ∧ (runQueries o qs).1 = qs.map (fun q => (getCSVCached o q).1) := by
    intro qs
    induction qs with
    | nil => intro o; exact ⟨rfl, rfl⟩
    | cons q qs ih =>
      intro o
      have h2 := ih ((getCSVCached o q).2)
      constructor
      · show ((runQueries ((getCSVCached o q).2) qs).2).entries = o.entries
        rw [h2.1, entries1]
      · show (getCSVCached o q).1 :: (runQueries ((getCSVCached o q).2) qs).1 = _
        rw [h2.2, List.map_cons]
        congr 1
        exact List.map_congr_left (fun a _ => idem o q a)
  exact ⟨fun o qs => (main qs o).1, fun o qs => (main qs o).2⟩

/-! ### Claim C2 -/

/-- Structured source and side table of the C2 counterexample: the
structured source supplies a win streak of 3 (path `streak`), the side
table one of 5 (header `win_streak`). -/
def c2r : JVal := .obj [("streak", .num 3)]

def c2csv : JVal := .obj [("win_streak", .num 5)]

/-- C2 counterexample: for `win_streak` the side table wins over the
structured source: with structured streak 3 resolving and side-table
streak 5 present, the output holds 5, not 3 (the source consults
`getCSV` before `pick` for `win_streak`, `max_win_streak` and
`upset_wins`). -/
theorem C2_counterexample :
    pick c2r ["streak"] = JVal.num 3
    ∧ getCSV c2csv A.streak = JVal.num 5
    ∧ (reconcileRow "u" c2r c2csv).win_streak = JVal.num 5
    ∧ JVal.num 5 ≠ JVal.num 3 := by
  refine ⟨rfl, rfl, rfl, fun h => ?_⟩
  rw [JVal.num.injEq] at h
  norm_num at h

/-- C2 amended: for every canonical field except `win_streak`,
`max_win_streak` and `upset_wins`, a value resolving (and, where the field
is coerced, coercing) from the structured source takes precedence over any
side-table or narrative value; for those three fields the side-table value
takes precedence over the structured source. -/
theorem C2_structured_precedence :
    (∀ u r csv, isNullish (pick r ["suspicion_score", "suspicion.score"]) = false →
      (reconcileRow u r csv).suspicion_score = pick r ["suspicion_score", "suspicion.score"])
    ∧ (∀ u r csv n, num (pick r ["tournament.games", "t.games", "tourn.games"]) = some n →
      (reconcileRow u r csv).tourn_games = some n)
    ∧ (∀ u r csv n, num (pick r ["tournament.wins", "t.wins", "tourn.wins"]) = some n →
      (reconcileRow u r csv).tourn_wins = some n)
    ∧ (∀ u r csv n, num (pick r ["tournament.draws", "t.draws", "tourn.draws"]) = some n →
      (reconcileRow u r csv).tourn_draws = some n)
    ∧ (∀ u r csv n, num (pick r ["tournament.losses", "t.losses", "tourn.losses"]) = some n →
      (reconcileRow u r csv).tourn_losses = some n)
    ∧ (∀ u r csv n, pct (pick r ["tournament.win_rate", "t.win_rate"]) = some n →
      (reconcileRow u r csv).tourn_win_rate = some n)
    ∧ (∀ u r csv n, num (pick r ["non_tournament.games", "nt.games"]) = some n →
      (reconcileRow u r csv).non_tourn_games = some n)
    ∧ (∀ u r csv n, num (pick r ["non_tournament.wins", "nt.wins"]) = some n →
      (reconcileRow u r csv).non_tourn_wins = some n)
    ∧ (∀ u r csv n, num (pick r ["non_tournament.draws", "nt.draws"]) = some n →
      (reconcileRow u r csv).non_tourn_draws = some n)
    ∧ (∀ u r csv n, num (pick r ["non_tournament.losses", "nt.losses"]) = some n →
      (reconcileRow u r csv).non_tourn_losses = some n)
    ∧ (∀ u r csv n, pct (pick r ["non_tournament.win_rate", "nt.win_rate"]) = some n →
      (reconcileRow u r csv).non_tourn_win_rate = some n)
    ∧ (∀ u r csv n,
      num (pick r ["totals.games", "lifetime_games", "recent.games", "games"]) = some n →
      (reconcileRow u r csv).recent_games = some n)
    ∧ (∀ u r csv n, num (pick r ["totals.wins", "wins"]) = some n →
      (reconcileRow u r csv).recent_wins = some n)
    ∧ (∀ u r csv n, num (pick r ["totals.draws", "draws"]) = some n →
      (reconcileRow u r csv).recent_draws = some n)
    ∧ (∀ u r csv n, num (pick r ["totals.losses", "losses"]) = some n →
      (reconcileRow u r csv).recent_losses = some n)
    ∧ (∀ u r csv n, pct (pick r ["ratios.short_win_rate", "short_win_rate"]) = some n →
      (reconcileRow u r csv).short_win_rate = some n)
    ∧ (∀ u r csv n, pct (pick r ["ratios.timeout_win_ratio", "timeout_win_ratio"]) = some n →
      (reconcileRow u r csv).timeout_win_ratio = some n)
    ∧ (∀ u r csv n, num (pick r ["totals.elo.gain", "elo.gain"]) = some n →
      (reconcileRow u r csv).elo_gain = some n)
    ∧ (∀ u r csv n, num (pick r ["totals.elo.loss", "elo.loss"]) = some n →
      (reconcileRow u r csv).elo_loss = some n)
    ∧ (∀ u r csv n, rat (pick r ["totals.elo.ratio", "elo.ratio"]) = some n →
      (reconcileRow u r csv).elo_ratio = some n)
    ∧ (∀ u r csv n, num (pick r ["tournament.elo.gain", "t.elo.gain"]) = some n →
      (reconcileRow u r csv).tourn_elo_gain = some n)
    ∧ (∀ u r csv n, num (pick r ["tournament.elo.loss", "t.elo.loss"]) = some n →
      (reconcileRow u r csv).tourn_elo_loss = some n)
    ∧ (∀ u r csv n, rat (pick r ["tournament.elo.ratio", "t.elo.ratio"]) = some n →
      (reconcileRow u r csv).tourn_elo_ratio = some n)
    ∧ (∀ u r csv n, num (pick r ["non_tournament.elo.gain", "nt.elo.gain"]) = some n →
      (reconcileRow u r csv).non_tourn_elo_gain = some n)
    ∧ (∀ u r csv n, num (pick r ["non_tournament.elo.loss", "nt.elo.loss"]) = some n →
      (reconcileRow u r csv).non_tourn_elo_loss = some n)
    ∧ (∀ u r csv n, rat (pick r ["non_tournament.elo.ratio", "nt.elo.ratio"]) = some n →
      (reconcileRow u r csv).non_tourn_elo_ratio = some n)
    ∧ (∀ u r csv n, pct (pick r ["ratios.self_bail_loss_ratio_t"]) = some n →
      (reconcileRow u r csv).t_self_bail_loss_ratio = some n)
    ∧ (∀ u r csv n, pct (pick r ["ratios.self_bail_loss_ratio_nt"]) = some n →
      (reconcileRow u r csv).nt_self_bail_loss_ratio = some n)
    ∧ (∀ u r csv, isNullish (getCSV csv A.streak) = false →
      (reconcileRow u r csv).win_streak = getCSV csv A.streak)
    ∧ (∀ u r csv, isNullish (getCSV csv A.maxStreak) = false →
      (reconcileRow u r csv).max_win_streak = getCSV csv A.maxStreak)
    ∧ (∀ u r csv, isNullish (getCSV csv A.upsetWins) = false →
      (reconcileRow u r csv).upset_wins = getCSV csv A.upsetWins) := by
  refine ⟨?_, ?_, ?_, ?_, ?_, ?_, ?_, ?_, ?_, ?_, ?_, ?_, ?_, ?_, ?_, ?_, ?_, ?_,
    ?_, ?_, ?_, ?_, ?_, ?_, ?_, ?_, ?_, ?_, ?_, ?_, ?_⟩
  · intro u r csv h
    show suspicionOf r csv = _
    simp [suspicionOf, h]
  · intro u r csv n h
    show t_gamesOf r csv = _
    rw [t_gamesOf, h, Option.or_some]
  · intro u r csv n h
    show t_winsOf r csv = _
    rw [t_winsOf, h, Option.or_some]
  · intro u r csv n h
    show t_drawsOf r csv = _
    rw [t_drawsOf, h, Option.or_some]
  · intro u r csv n h
    show t_lossesOf r csv = _
    rw [t_lossesOf, h, Option.or_some]
  · intro u r csv n h
    show tWROf r csv = _
    rw [tWROf, tWR₀Of, h, Option.or_some]
  · intro u r csv n h
    show nt_gamesOf r csv = _
    rw [nt_gamesOf, h, Option.or_some]
  · intro u r csv n h
    show nt_winsOf r csv = _
    rw [nt_winsOf, h, Option.or_some]
  · intro u r csv n h
    show nt_drawsOf r csv = _
    rw [nt_drawsOf, h, Option.or_some]
  · intro u r csv n h
    show nt_lossesOf r csv = _
    rw [nt_lossesOf, h, Option.or_some]
  · intro u r csv n h
    show ntWROf r csv = _
    rw [ntWROf, ntWR₀Of, h, Option.or_some]
  · intro u r csv n h
    show recent_gamesOf r csv = _
    rw [recent_gamesOf, recent_games₀Of, h, Option.or_some, Option.or_some, Option.or_some]
  · intro u r csv n h
    show recent_winsOf r csv = _
    rw [recent_winsOf, recent_wins₀Of, h, Option.or_some, Option.or_some]
  · intro u r csv n h
    show recent_drawsOf r csv = _
    rw [recent_drawsOf, recent_draws₀Of, h, Option.or_some, Option.or_some]
  · intro u r csv n h
    show recent_lossesOf r csv = _
    rw [recent_lossesOf, recent_losses₀Of, h, Option.or_some, Option.or_some]
  · intro u r csv n h
    show short_win_rateOf r csv = _
    rw [short_win_rateOf, h, Option.or_some]
  · intro u r csv n h
    show timeout_win_ratioOf r csv = _
    rw [timeout_win_ratioOf, h, Option.or_some]
  · intro u r csv n h
    show elo_gainOf r csv = _
    rw [elo_gainOf, h, Option.or_some]
  · intro u r csv n h
    show elo_lossOf r csv = _
    rw [elo_lossOf, h, Option.or_some]
  · intro u r csv n h
    show elo_ratioOf r csv = _
    rw [elo_ratioOf, h, Option.or_some, Option.or_some]
  · intro u r csv n h
    show t_elo_gainOf r csv = _
    rw [t_elo_gainOf, h, Option.or_some]
  · intro u r csv n h
    show t_elo_lossOf r csv = _
    rw [t_elo_lossOf, h, Option.or_some]
  · intro u r csv n h
    show t_elo_ratioOf r csv = _
    rw [t_elo_ratioOf, h, Option.or_some, Option.or_some]
  · intro u r csv n h
    show nt_elo_gainOf r csv = _
    rw [nt_elo_gainOf, h, Option.or_some]
  · intro u r csv n h
    show nt_elo_lossOf r csv = _
    rw [nt_elo_lossOf, h, Option.or_some]
  · intro u r csv n h
    show nt_elo_ratioOf r csv = _
    rw [nt_elo_ratioOf, h, Option.or_some, Option.or_some]
  · intro u r csv n h
    show t_self_bailOf r csv = _
    rw [t_self_bailOf, h, Option.or_some]
  · intro u r csv n h
    show nt_self_bailOf r csv = _
    rw [nt_self_bailOf, h, Option.or_some, Option.or_some]
  · intro u r csv h
    show win_streakOf r csv = _
    simp [win_streakOf, h]
  · intro u r csv h
    show max_win_streakOf r csv = _
    simp [max_win_streakOf, h]
  · intro u r csv h
    show upset_winsOf r csv = _
    simp [upset_winsOf, h]

/-- Structured source of the C2 witness: every dotted path of the amended
claim resolves to a coercible value. -/
def c2wr : JVal := .obj
  [("suspicion_score", .num 7),
   ("streak", .num 77),
   ("max_streak", .num 77),
   ("upset_wins", .num 77),
   ("tournament", .obj
     [("games", .num 10), ("wins", .num 6), ("draws", .num 1), ("losses", .num 3),
      ("win_rate", .num 60),
      ("elo", .obj [("gain", .num 12), ("loss", .num 8), ("ratio", .num (3/2))])]),
   ("non_tournament", .obj
     [("games", .num 20), ("wins", .num 5), ("draws", .num 5), ("losses", .num 10),
      ("win_rate", .num 25),
      ("elo", .obj [("gain", .num 4), ("loss", .num 16), ("ratio", .num (1/4))])]),
   ("totals", .obj
     [("games", .num 30), ("wins", .num 11), ("draws", .num 6), ("losses", .num 13),
      ("elo", .obj [("gain", .num 16), ("loss", .num 24), ("ratio", .num (2/3))])]),
   ("ratios", .obj
     [("short_win_rate", .num 40), ("timeout_win_ratio", .num 10),
      ("self_bail_loss_ratio_t", .num 5), ("self_bail_loss_ratio_nt", .num 15)])]

/-- Side table of the C2 witness: conflicting values everywhere, plus the
three streak/upset columns that do win. -/
def c2wcsv : JVal := .obj
  [("suspicion_score", .num 99), ("t_games", .num 99), ("t_wins", .num 99),
   ("nt_games", .num 99), ("recent_games", .num 99), ("elo_ratio", .num 99),
   ("win_streak", .num 4), ("max_win_streak", .num 9), ("upset_wins", .num 2)]

/-- Witness for C2: on an input where both sources conflict, every
structured value appears in the row, except the three fields where the
side-table value appears. -/
theorem C2_witness :
    (reconcileRow "u" c2wr c2wcsv).suspicion_score = JVal.num 7
    ∧ (reconcileRow "u" c2wr c2wcsv).tourn_games = some 10
    ∧ (reconcileRow "u" c2wr c2wcsv).tourn_wins = some 6
    ∧ (reconcileRow "u" c2wr c2wcsv).tourn_draws = some 1
    ∧ (reconcileRow "u" c2wr c2wcsv).tourn_losses = some 3
    ∧ (reconcileRow "u" c2wr c2wcsv).tourn_win_rate = some 60
    ∧ (reconcileRow "u" c2wr c2wcsv).non_tourn_games = some 20
    ∧ (reconcileRow "u" c2wr c2wcsv).non_tourn_wins = some 5
    ∧ (reconcileRow "u" c2wr c2wcsv).non_tourn_draws = some 5
    ∧ (reconcileRow "u" c2wr c2wcsv).non_tourn_losses = some 10
    ∧ (reconcileRow "u" c2wr c2wcsv).non_tourn_win_rate = some 25
    ∧ (reconcileRow "u" c2wr c2wcsv).recent_games = some 30
    ∧ (reconcileRow "u" c2wr c2wcsv).recent_wins = some 11
    ∧ (reconcileRow "u" c2wr c2wcsv).recent_draws = some 6
    ∧ (reconcileRow "u" c2wr c2wcsv).recent_losses = some 13
    ∧ (reconcileRow "u" c2wr c2wcsv).short_win_rate = some 40
    ∧ (reconcileRow "u" c2wr c2wcsv).timeout_win_ratio = some 10
    ∧ (reconcileRow "u" c2wr c2wcsv).elo_gain = some 16
    ∧ (reconcileRow "u" c2wr c2wcsv).elo_loss = some 24
    ∧ (reconcileRow "u" c2wr c2wcsv).elo_ratio = some (667/1000)
    ∧ (reconcileRow "u" c2wr c2wcsv).tourn_elo_gain = some 12
    ∧ (reconcileRow "u" c2wr c2wcsv).tourn_elo_loss = some 8
    ∧ (reconcileRow "u" c2wr c2wcsv).tourn_elo_ratio = some (3/2)
    ∧ (reconcileRow "u" c2wr c2wcsv).non_tourn_elo_gain = some 4
    ∧ (reconcileRow "u" c2wr c2wcsv).non_tourn_elo_loss = some 16
    ∧ (reconcileRow "u" c2wr c2wcsv).non_tourn_elo_ratio = some (1/4)
    ∧ (reconcileRow "u" c2wr c2wcsv).t_self_bail_loss_ratio = some 5
    ∧ (reconcileRow "u" c2wr c2wcsv).nt_self_bail_loss_ratio = some 15
    ∧ (reconcileRow "u" c2wr c2wcsv).win_streak = getCSV c2wcsv A.streak
    ∧ (reconcileRow "u" c2wr c2wcsv).max_win_streak = getCSV c2wcsv A.maxStreak
    ∧ (reconcileRow "u" c2wr c2wcsv).upset_wins = getCSV c2wcsv A.upsetWins := by
  obtain ⟨h01, h02, h03, h04, h05, h06, h07, h08, h09, h10, h11, h12, h13, h14,
    h15, h16, h17, h18, h19, h20, h21, h22, h23, h24, h25, h26, h27, h28,
    h29, h30, h31⟩ := C2_structured_precedence
  exact ⟨h01 "u" c2wr c2wcsv (by decide),
    h02 "u" c2wr c2wcsv 10 (by decide), h03 "u" c2wr c2wcsv 6 (by decide),
    h04 "u" c2wr c2wcsv 1 (by decide), h05 "u" c2wr c2wcsv 3 (by decide),
    h06 "u" c2wr c2wcsv 60 (by decide), h07 "u" c2wr c2wcsv 20 (by decide),
    h08 "u" c2wr c2wcsv 5 (by decide), h09 "u" c2wr c2wcsv 5 (by decide),
    h10 "u" c2wr c2wcsv 10 (by decide), h11 "u" c2wr c2wcsv 25 (by decide),
    h12 "u" c2wr c2wcsv 30 (by decide), h13 "u" c2wr c2wcsv 11 (by decide),
    h14 "u" c2wr c2wcsv 6 (by decide), h15 "u" c2wr c2wcsv 13 (by decide),
    h16 "u" c2wr c2wcsv 40 (by decide), h17 "u" c2wr c2wcsv 10 (by decide),
    h18 "u" c2wr c2wcsv 16 (by decide), h19 "u" c2wr c2wcsv 24 (by decide),
    h20 "u" c2wr c2wcsv (667/1000) (by decide), h21 "u" c2wr c2wcsv 12 (by decide),
    h22 "u" c2wr c2wcsv 8 (by decide), h23 "u" c2wr c2wcsv (3/2) (by decide),
    h24 "u" c2wr c2wcsv 4 (by decide), h25 "u" c2wr c2wcsv 16 (by decide),
    h26 "u" c2wr c2wcsv (1/4) (by decide), h27 "u" c2wr c2wcsv 5 (by decide),
    h28 "u" c2wr c2wcsv 15 (by decide),
    h29 "u" c2wr c2wcsv (by decide), h30 "u" c2wr c2wcsv (by decide),
    h31 "u" c2wr c2wcsv (by decide)⟩

/-! ### Claim C4 -/

/-- A value that is a (finite) number or the explicit unknown (`null`),
as the claimed invariant demands of every numeric field. -/
def isNumericOrUnknown : JVal → Prop
  | .num _ => True
  | .null => True
  | _ => False

/-- Side table of the C4 counterexample: a non-numeric win-streak cell. -/
def c4csv : JVal := .obj [("win_streak", .str "abc")]

/-- C4 counterexample: `win_streak` is copied raw from the side table
without numeric coercion, so a string cell ends up verbatim in the output
row, contradicting the claimed never-a-raw-string invariant. -/
theorem C4_counterexample :
    (reconcileRow "u" (.obj []) c4csv).win_streak = JVal.str "abc"
    ∧ ¬ isNumericOrUnknown (reconcileRow "u" (.obj []) c4csv).win_streak :=
  ⟨rfl, fun h => h⟩

/-- The option holds either nothing or a multiple of `1/d`. -/
def multP (d : ℕ) : Option ℚ → Prop
  | none => True
  | some q => ∃ k : ℤ, q = (k : ℚ) / d

theorem multP_pct (v : JVal) : multP 10 (pct v) := by
  cases h : num v with
  | none => simp [pct, h, multP]
  | some n =>
    rw [pct_some h]
    exact ⟨jround ((if n ≤ 1 then n * 100 else n) * 10), rfl⟩

theorem multP_rat (v : JVal) : multP 1000 (rat v) := by
  cases h : num v with
  | none => simp [rat, h, multP]
  | some n =>
    rw [rat_some h]
    exact ⟨jround (n * 1000), rfl⟩

theorem multP_or {d : ℕ} {a b : Option ℚ} (ha : multP d a) (hb : multP d b) :
    multP d (a.or b) := by
  cases a with
  | none => rwa [Option.none_or]
  | some q => rwa [Option.or_some]

theorem multP_capConv_rat (m : Option Outcome) : multP 1000 (capConv rat m) := by
  match m with
  | none => exact trivial
  | some (_, some c, _) => exact multP_rat _
  | some (_, none, _) => exact multP_rat _

theorem multP_capConv_pct (m : Option Outcome) : multP 10 (capConv pct m) := by
  match m with
  | none => exact trivial
  | some (_, some c, _) => exact multP_pct _
  | some (_, none, _) => exact multP_pct _

theorem multP_tWR (r csv : JVal) : multP 10 (tWROf r csv) := by
  have h0 : multP 10 (tWR₀Of r csv) := multP_or (multP_pct _) (multP_pct _)
  rw [tWROf]
  cases h : tWR₀Of r csv with
  | some x => rw [h] at h0; exact h0
  | none =>
    cases t_winsOf r csv with
    | none => exact trivial
    | some w =>
      cases t_gamesOf r csv with
      | none => exact trivial
      | some g =>
        by_cases hg : 0 < g
        · simp only [if_pos hg]
          exact ⟨jround (w / g * 100 * 10), rfl⟩
        · simp only [if_neg hg]
          exact trivial

theorem multP_ntWR (r csv : JVal) : multP 10 (ntWROf r csv) := by
  have h0 : multP 10 (ntWR₀Of r csv) := multP_or (multP_pct _) (multP_pct _)
  rw [ntWROf]
  cases h : ntWR₀Of r csv with
  | some x => rw [h] at h0; exact h0
  | none =>
    cases nt_winsOf r csv with
    | none => exact trivial
    | some w =>
      cases nt_gamesOf r csv with
      | none => exact trivial
      | some g =>
        by_cases hg : 0 < g
        · simp only [if_pos hg]
          exact ⟨jround (w / g * 100 * 10), rfl⟩
        · simp only [if_neg hg]
          exact trivial

/-- C4 amended: every declared field of the row is present by construction
(the output object literal assigns all of them), and every field that goes
through the numeric normalizers is unknown or a finite rational rounded to
its declared precision (percentage fields are integer multiples of `0.1`,
ratio fields of `0.001`); however the fields `suspicion_score`,
`win_streak`, `max_win_streak` and `upset_wins` are copied raw from the
sources and may hold non-numeric values such as strings. -/
theorem C4_declared_precision (u : String) (r csv : JVal) :
    multP 10 (reconcileRow u r csv).short_win_rate
    ∧ multP 10 (reconcileRow u r csv).timeout_win_ratio
    ∧ multP 10 (reconcileRow u r csv).tourn_win_rate
    ∧ multP 10 (reconcileRow u r csv).non_tourn_win_rate
    ∧ multP 10 (reconcileRow u r csv).wr_gap
    ∧ multP 10 (reconcileRow u r csv).t_self_bail_loss_ratio
    ∧ multP 10 (reconcileRow u r csv).nt_self_bail_loss_ratio
    ∧ multP 1000 (reconcileRow u r csv).elo_ratio
    ∧ multP 1000 (reconcileRow u r csv).tourn_elo_ratio
    ∧ multP 1000 (reconcileRow u r csv).non_tourn_elo_ratio
    ∧ multP 1000 (reconcileRow u r csv).elo_ratio_gap := by
  refine ⟨multP_or (multP_pct _) (multP_pct _), multP_or (multP_pct _) (multP_pct _),
    multP_tWR r csv, multP_ntWR r csv, ?_, multP_or (multP_pct _) (multP_pct _),
    multP_or (multP_or (multP_pct _) (multP_pct _)) (multP_capConv_pct _), ?_, ?_, ?_, ?_⟩
  · show multP 10 (wr_gapOf r csv)
    rw [wr_gapOf]
    cases tWROf r csv with
    | none => exact multP_pct _
    | some a =>
      cases ntWROf r csv with
      | none => exact multP_pct _
      | some b => exact ⟨jround ((a - b) * 10), rfl⟩
  · exact multP_or (multP_or (multP_rat _) (multP_rat _)) (multP_capConv_rat _)
  · exact multP_or (multP_or (multP_rat _) (multP_rat _)) (multP_capConv_rat _)
  · exact multP_or (multP_or (multP_rat _) (multP_rat _)) (multP_capConv_rat _)
  · show multP 1000 (elo_ratio_gapOf r csv)
    rw [elo_ratio_gapOf]
    cases t_elo_ratioOf r csv with
    | none => exact multP_or (multP_rat _) (multP_capConv_rat _)
    | some a =>
      cases nt_elo_ratioOf r csv with
      | none => exact multP_or (multP_rat _) (multP_capConv_rat _)
      | some b => exact ⟨jround ((a - b) * 1000), rfl⟩

/-! ### Claim C1 -/

/-- The structured source of the end-to-end scenario:
`{tournament: {games: 10, wins: 7}, non_tournament: {games: 5, wins: 1}}`
together with the narrative `"flagged over 15 games (gap 0.42)"` (the
narrative enters the pipeline through the result's `reasons` field). -/
def c1r : JVal := .obj
  [("tournament", .obj [("games", .num 10), ("wins", .num 7)]),
   ("non_tournament", .obj [("games", .num 5), ("wins", .num 1)]),
   ("reasons", .str "flagged over 15 games (gap 0.42)")]

/-- C1: with that structured source, no side-table row and that narrative,
the reconciled row has recent games 15, tournament win rate 70.0 (derived
as `round1(7/10*100)`, no direct win-rate value existing) and elo-ratio
gap 0.42 (from the narrative: neither a direct nor a derived value
exists). -/
theorem C1_end_to_end :
    (buildDownloadCsvRowsStrict [("alice", c1r)] []).map Row.recent_games = [some 15]
    ∧ (buildDownloadCsvRowsStrict [("alice", c1r)] []).map Row.tourn_win_rate = [some 70]
    ∧ (buildDownloadCsvRowsStrict [("alice", c1r)] []).map Row.elo_ratio_gap
      = [some (42/100)]
    ∧ tWR₀Of c1r .undefined = none
    ∧ (jround ((7 : ℚ) / 10 * 100 * 10) : ℚ) / 10 = 70
    ∧ t_elo_ratioOf c1r .undefined = none
    ∧ nt_elo_ratioOf c1r .undefined = none
    ∧ rat (getCSV .undefined A.eloRatioGap) = none
    ∧ (parsedOf c1r .undefined).gap = some (42/100) := by
  exact ⟨by decide, by decide, by decide, by decide, by decide, by decide, by decide,
    by decide, by decide⟩

/-! ### Claim C3 -/

theorem strLtb_irrefl : ∀ a : List Char, strLtb a a = false := by
  intro a
  induction a with
  | nil => rfl
  | cons x xs ih => simp [strLtb, ih]


theorem strLtb_trans : ∀ {a b c : List Char},
    strLtb a b = true → strLtb b c = true → strLtb a c = true := by
  intro a
  induction a with
  | nil =>
    intro b c h1 h2
    cases b with
    | nil => simp [strLtb] at h1
    | cons y ys =>
      cases c with
      | nil => simp [strLtb] at h2
      | cons z zs => rfl
  | cons x xs ih =>
    intro b c h1 h2
    cases b with
    | nil => simp [strLtb] at h1
    | cons y ys =>
      cases c with
      | nil => simp [strLtb] at h2
      | cons z zs =>
        rw [strLtb] at h1 h2 ⊢
        rcases lt_trichotomy x y with hxy | rfl | hxy
        · rcases lt_trichotomy y z with hyz | rfl | hyz
          · rw [if_pos (lt_trans hxy hyz)]
          · rw [if_pos hxy]
          · rw [if_neg (lt_asymm hyz), if_pos hyz] at h2
            simp at h2
        · rw [if_neg (lt_irrefl x), if_neg (lt_irrefl x)] at h1
          rcases lt_trichotomy x z with hxz | rfl | hxz
          · rw [if_pos hxz]
          · rw [if_neg (lt_irrefl x), if_neg (lt_irrefl x)] at h2 ⊢
            exact ih h1 h2
          · rw [if_neg (lt_asymm hxz), if_pos hxz] at h2
            simp at h2
        · rw [if_neg (lt_asymm hxy), if_pos hxy] at h1
          simp at h1

theorem strLtb_false_iff : ∀ a b : List Char,
    strLtb a b = false ↔ (strLtb b a = true ∨ a = b) := by
  intro a
  induction a with
  | nil =>
    intro b
    cases b with
    | nil => simp [strLtb]
    | cons y ys => simp [strLtb]
  | cons x xs ih =>
    intro b
    cases b with
    | nil => simp [strLtb]
    | cons y ys =>
      rw [strLtb, strLtb]
      rcases lt_trichotomy x y with hxy | rfl | hxy
      · rw [if_pos hxy, if_neg (lt_asymm hxy), if_pos hxy]
        constructor
        · intro h; simp at h
        · rintro (h | h)
          · simp at h
          · injection h with h1 h2
            exact absurd h1 (ne_of_lt hxy)
      · rw [if_neg (lt_irrefl x), if_neg (lt_irrefl x), if_neg (lt_irrefl x),
          if_neg (lt_irrefl x)]
        rw [ih ys]
        constructor
        · rintro (h | h)
          · exact Or.inl h
          · exact Or.inr (by rw [h])
        · rintro (h | h)
          · exact Or.inl h
          · injection h with h1 h2
            exact Or.inr h2
      · rw [if_neg (lt_asymm hxy), if_pos hxy, if_pos hxy]
        simp

theorem nameLE_total (a b : Row) : nameLE a b = true ∨ nameLE b a = true := by
  rw [nameLE, nameLE]
  by_cases h : strLtb (lowData b.username) (lowData a.username) = true
  · right
    have hf : strLtb (lowData a.username) (lowData b.username) = false := by
      by_contra hh
      rw [Bool.not_eq_false] at hh
      have hbb := strLtb_trans h hh
      rw [strLtb_irrefl] at hbb
      simp at hbb
    rw [hf]
    rfl
  · left
    rw [Bool.not_eq_true] at h
    rw [h]
    rfl

theorem nameLE_trans {a b c : Row} (h1 : nameLE a b = true) (h2 : nameLE b c = true) :
    nameLE a c = true := by
  rw [nameLE] at h1 h2 ⊢
  rw [Bool.not_eq_true'] at h1 h2 ⊢
  rcases (strLtb_false_iff _ _).1 h1 with hab | hab <;>
    rcases (strLtb_false_iff _ _).1 h2 with hbc | hbc
  · exact (strLtb_false_iff _ _).2 (Or.inl (strLtb_trans hab hbc))
  · exact (strLtb_false_iff _ _).2 (Or.inl (by rw [hbc]; exact hab))
  · exact (strLtb_false_iff _ _).2 (Or.inl (by rw [← hab]; exact hbc))
  · exact (strLtb_false_iff _ _).2 (Or.inr (hbc.trans hab))

instance : IsTotal Row rowRel where
  total a b := by
    rw [rowRel, rowRel]
    cases hx : num a.suspicion_score with
    | none =>
      cases hy : num b.suspicion_score with
      | none =>
        simp only [rowLE, hx, hy]
        exact nameLE_total a b
      | some y =>
        simp only [rowLE, hx, hy]
        exact Or.inr trivial
    | some x =>
      cases hy : num b.suspicion_score with
      | none =>
        simp only [rowLE, hx, hy]
        exact Or.inl trivial
      | some y =>
        simp only [rowLE, hx, hy]
        by_cases hxy : x = y
        · subst hxy
          rw [if_pos rfl, if_pos rfl]
          exact nameLE_total a b
        · rw [if_neg hxy, if_neg (fun hh => hxy hh.symm)]
          rcases lt_or_gt_of_ne hxy with h | h
          · right
            simp [h]
          · left
            simp [h]

instance : IsTrans Row rowRel where
  trans a b c hab hbc := by
    rw [rowRel] at hab hbc ⊢
    cases hx : num a.suspicion_score with
    | none =>
      cases hy : num b.suspicion_score with
      | none =>
        cases hz : num c.suspicion_score with
        | none =>
          simp only [rowLE, hx, hy, hz] at hab hbc ⊢
          exact nameLE_trans hab hbc
        | some z =>
          simp [rowLE, hy, hz] at hbc
      | some y =>
        simp [rowLE, hx, hy] at hab
    | some x =>
      cases hy : num b.suspicion_score with
      | none =>
        cases hz : num c.suspicion_score with
        | none =>
          simp [rowLE, hx, hz]
        | some z =>
          simp [rowLE, hy, hz] at hbc
      | some y =>
        cases hz : num c.suspicion_score with
        | none =>
          simp [rowLE, hx, hz]
        | some z =>
          simp only [rowLE, hx, hy, hz] at hab hbc ⊢
          by_cases hxy : x = y <;> by_cases hyz : y = z
          · subst hxy
            subst hyz
            rw [if_pos rfl] at hab hbc ⊢
            exact nameLE_trans hab hbc
          · subst hxy
            rw [if_neg hyz] at hbc ⊢
            exact hbc
          · subst hyz
            rw [if_neg hxy] at hab ⊢
            exact hab
          · rw [if_neg hxy] at hab
            rw [if_neg hyz] at hbc
            rw [decide_eq_true_eq] at hab hbc
            have hzx : z < x := lt_trans hbc hab
            have hxz : ¬ x = z := by
              intro hh
              rw [hh] at hzx
              exact lt_irrefl z hzx
            rw [if_neg hxz]
            simp [hzx]

/-- The arrival-ordered inputs of the sort example: suspicion scores
`[3.2, 3.2, unknown, 5.0]` with identities `["bob", "Alice", "carl",
"dave"]`. -/
def c3rows : List InRow :=
  [("bob", .obj [("suspicion_score", .num (16/5))]),
   ("Alice", .obj [("suspicion_score", .num (16/5))]),
   ("carl", .obj []),
   ("dave", .obj [("suspicion_score", .num 5)])]

/-- C3: the output sequence is sorted by the comparator order (suspicion
descending, unknown as the minimum, exact ties broken by lowercased
identity ascending), it is a permutation of the input rows, any run of
fully tied rows keeps its arrival order (stability), and the concrete
example sorts to `dave, Alice, bob, carl`. -/
theorem C3_row_order :
    (∀ l, List.Sorted rowRel (sortRows l))
    ∧ (∀ l, List.Perm (sortRows l) l)
    ∧ (∀ l c, List.Pairwise rowTie c → List.Sublist c l → List.Sublist c (sortRows l))
    ∧ (buildDownloadCsvRowsStrict c3rows []).map Row.username
      = ["dave", "Alice", "bob", "carl"] := by
  refine ⟨fun l => List.sorted_insertionSort rowRel l,
    fun l => List.perm_insertionSort rowRel l,
    fun l c hp hs => List.sublist_insertionSort (hp.imp (fun h => h.1)) hs,
    by decide⟩

/-- The fully tied rows of the C3 witness: equal suspicion scores and
identities equal up to case. -/
def c3tie : List Row :=
  [buildRow ("Sam", .obj [("suspicion_score", .num 2)]) [],
   buildRow ("sam", .obj [("suspicion_score", .num 2)]) []]

/-- Witness for C3's stability clause: a fully tied pair of rows is kept
in arrival order by the sort. -/
theorem C3_witness :
    List.Pairwise rowTie c3tie ∧ List.Sublist c3tie c3tie
    ∧ List.Sublist c3tie (sortRows c3tie) := by
  have hp : List.Pairwise rowTie c3tie := by
    unfold c3tie
    refine List.Pairwise.cons ?_ (List.pairwise_singleton _ _)
    intro b hb
    rw [List.mem_singleton] at hb
    subst hb
    exact ⟨by decide, by decide⟩
  exact ⟨hp, List.Sublist.refl _, C3_row_order.2.2.1 c3tie c3tie hp (List.Sublist.refl _)⟩

end SusScanner

